import Mathlib

/-!
Shallow embedding of the Verbatim backend (FastAPI + Supabase glue code).

Time is modelled as integer seconds since the epoch (PyJWT compares the
integer `exp` claim against the current integer timestamp).  A signed JWT
is modelled as its decoded payload together with the symmetric key it was
signed with: under HS256 the signature is a deterministic MAC of
(payload, key), and verification with key k succeeds exactly when the
token was signed with k.  External service calls (Supabase auth, table
inserts) are modelled as explicit oracle parameters carrying the outcome
of the call, and table state is passed as an explicit list of rows.
-/

set_option autoImplicit false

namespace Verbatim

/-- A decoded JWT payload.  The two token-issuing sites in the source use
the claim names sub, email, user_id and exp; a field that is absent from
the payload dict is `none`.  `exp` is an integer timestamp in seconds. -/
structure JwtPayload where
  sub : Option String
  email : Option String
  user_id : Option String
  exp : Option Nat
deriving DecidableEq, Repr

/-- A signed compact JWT, modelled as payload plus signing key (HS256: the
signature is determined by, and checks against, exactly this pair). -/
structure Jwt where
  payload : JwtPayload
  key : String
deriving DecidableEq, Repr

/-- Error classification of PyJWT jwt.decode. -/
inductive JwtError where
  | InvalidSignature
  | ExpiredSignature
deriving DecidableEq, Repr

/-- Model of PyJWT jwt.encode(payload, key, algorithm="HS256"). -/
def jwtEncode (payload : JwtPayload) (key : String) : Jwt :=
  { payload := payload, key := key }

/-- Model of PyJWT jwt.decode(token, key, algorithms=["HS256"]) at integer
time `now`: the signature is verified first (InvalidSignatureError when the
token was signed with a different key), then the exp claim is validated
with zero leeway (ExpiredSignatureError when exp is at or before now). -/
def jwtDecode (token : Jwt) (key : String) (now : Nat) : Except JwtError JwtPayload :=
  if token.key ≠ key then
    .error .InvalidSignature
  else
    match token.payload.exp with
    | some e => if e ≤ now then .error .ExpiredSignature else .ok token.payload
    | none => .ok token.payload

/-- Outcome of a FastAPI handler: an HTTPException raised with a status
code and detail string, or an exception that no handler caught (FastAPI
turns it into a generic 500 response). -/
inductive HandlerError where
  | httpException (status_code : Nat) (detail : String)
  | uncaught (msg : String)
deriving DecidableEq, Repr

/-- src/app/schemas/config.py: the Settings class, with exactly the
fields it declares.  Note that there is no JWT_SECRET field — the
signing secret it declares is named SECRET_KEY. -/
structure Settings where
  SUPABASE_URL : String
  SUPABASE_KEY : String
  SUPABASE_SERVICE_KEY : String
  SECRET_KEY : String
  GEMINI_API_KEY : String
  JWT_ALGORITHM : String
  CORS_ORIGINS : String
deriving DecidableEq, Repr

/-- Python attribute access settings.name on the Settings object of
src/app/schemas/config.py, resolved over the declared field names: an
undeclared name raises AttributeError with the standard message. -/
def Settings.getattr (s : Settings) (name : String) : Except String String :=
  if name == "SUPABASE_URL" then .ok s.SUPABASE_URL
  else if name == "SUPABASE_KEY" then .ok s.SUPABASE_KEY
  else if name == "SUPABASE_SERVICE_KEY" then .ok s.SUPABASE_SERVICE_KEY
  else if name == "SECRET_KEY" then .ok s.SECRET_KEY
  else if name == "GEMINI_API_KEY" then .ok s.GEMINI_API_KEY
  else if name == "JWT_ALGORITHM" then .ok s.JWT_ALGORITHM
  else if name == "CORS_ORIGINS" then .ok s.CORS_ORIGINS
  else .error ("\x27Settings\x27 object has no attribute \x27" ++ name ++ "\x27")

/-- src/app/core/auth.py, verify_jwt: inside the try block the handler
evaluates settings.JWT_SECRET as an argument to jwt.decode.  The Settings
class declares no JWT_SECRET field, so this access raises AttributeError
before jwt.decode is ever called, and the except clause collapses it —
like every other failure — into the single HTTPException 403 "Invalid or
expired token". -/
def verify_jwt (token : Jwt) (settings : Settings) (now : Nat) :
    Except HandlerError JwtPayload :=
  match settings.getattr "JWT_SECRET" with
  | .error _ => .error (.httpException 403 "Invalid or expired token")
  | .ok jwtSecret =>
    match jwtDecode token jwtSecret now with
    | .ok payload => .ok payload
    | .error _ => .error (.httpException 403 "Invalid or expired token")

/-- The user object of a successful supabase.auth.sign_in_with_password
response (only the id is read by the source). -/
structure AuthUser where
  id : String
deriving DecidableEq, Repr

/-- Response body of POST /auth/login in src/app/main.py. -/
structure LoginUserResponse where
  message : String
  access_token : Jwt
  token_type : String
deriving DecidableEq, Repr

/-- The JWT built by login_user (src/app/auth.py lines 43-50 and
src/app/main.py lines 139-144): payload sub = Supabase user id,
email = request email, exp = now + 2 hours, signed with the configured
JWT secret under HS256. -/
def loginToken (userId email : String) (issuedAt : Nat) (secret : String) : Jwt :=
  jwtEncode
    { sub := some userId, email := some email, user_id := none,
      exp := some (issuedAt + 7200) }
    secret

/-- src/app/main.py login_user (src/app/auth.py is the same handler up
to the response envelope and the detail prefix): delegates the
credential check to supabase.auth.sign_in_with_password, passed here as
an oracle (`.error e` when the call raised with message e, `.ok u` when
it returned with user field u).  A response without a user raises
HTTPException 401 inside the try block, which the except clause catches
and re-raises with the interpolated str() of the exception.  On a
successful credential check the handler evaluates settings.JWT_SECRET as
an argument to jwt.encode; the Settings class declares no such field, so
the access raises AttributeError, caught by the same except clause — the
success branch that signs and returns a token is unreachable. -/
def login_user (authResult : Except String (Option AuthUser))
    (email : String) (settings : Settings) (now : Nat) :
    Except HandlerError LoginUserResponse :=
  match authResult with
  | .error e => .error (.httpException 401 ("Login failed: " ++ e))
  | .ok none =>
      .error (.httpException 401 "Login failed: 401: Invalid email or password")
  | .ok (some user) =>
      match settings.getattr "JWT_SECRET" with
      | .error e => .error (.httpException 401 ("Login failed: " ++ e))
      | .ok secret =>
          .ok { message := "Login successful!",
                access_token := loginToken user.id email now secret,
                token_type := "bearer" }

/-- A row of the Supabase "users" table as written by signup in
src/app/api/auth.py (id and created_at are assigned by the store). -/
structure UserRow where
  id : String
  email : String
  name : Option String
  password_hash : String
  plan_type : String
  created_at : String
deriving DecidableEq, Repr

/-- The UserResponse pydantic model: built from a users-table row, it
carries email, name, id, created_at and plan_type and drops the
password_hash key (extra dict keys are ignored by the model). -/
structure UserResponse where
  email : String
  name : Option String
  id : String
  created_at : String
  plan_type : String
deriving DecidableEq, Repr

/-- UserResponse(**user_data) on a users-table row. -/
def toUserResponse (u : UserRow) : UserResponse :=
  { email := u.email, name := u.name, id := u.id,
    created_at := u.created_at, plan_type := u.plan_type }

/-- Modelled from the spec: app.core.security.get_password_hash is imported
by src/app/api/auth.py but its file is absent from the snapshot.  Per spec
section 4.1 it produces a salted one-way hash of the plaintext for storage;
it is modelled as an injective tagging of the plaintext, which realises the
contract that verification matches exactly the hashed password. -/
def get_password_hash (password : String) : String :=
  "$2b$12$" ++ password

/-- Modelled from the spec: app.core.security.verify_password is imported
by src/app/api/auth.py but its file is absent from the snapshot.  Per spec
section 4.1 it returns a boolean match between a plaintext password and a
stored hash. -/
def verify_password (password storedHash : String) : Bool :=
  get_password_hash password == storedHash

/-- Modelled from the spec: app.core.security.create_access_token is
imported by src/app/api/auth.py but its file is absent from the snapshot.
Per spec section 4.2 it encodes the given claims plus exp = now +
expires_delta with the symmetric signing key under the single fixed
algorithm.  The call sites pass data = \x7bsub: email, user_id: id\x7d. -/
def create_access_token (sub user_id : String) (now expiresDeltaSecs : Nat)
    (secret : String) : Jwt :=
  jwtEncode
    { sub := some sub, email := none, user_id := some user_id,
      exp := some (now + expiresDeltaSecs) }
    secret

/-- Modelled from the spec: app.core.security.decode_access_token is
imported by src/app/api/auth.py but its file is absent from the snapshot.
Per spec section 4.2 it verifies signature and expiry and the guard treats
its result as payload-or-None. -/
def decode_access_token (token : Jwt) (secret : String) (now : Nat) :
    Option JwtPayload :=
  match jwtDecode token secret now with
  | .ok payload => some payload
  | .error _ => none

/-- Response body of the signup and login handlers in
src/app/api/auth.py (the Token pydantic model). -/
structure TokenResponse where
  access_token : Jwt
  token_type : String
  user : UserResponse
deriving DecidableEq, Repr

/-- src/app/api/auth.py signup: rejects an email that already has a row in
the users table with HTTPException 400 "Email already registered" before
touching the store; otherwise hashes the password, inserts the new row
(the store assigns newId and createdAt; insertOk is the oracle for the
insert returning data) and returns a fresh token.  The users-table state
is threaded explicitly and returned alongside the response. -/
def signup (db : List UserRow) (email password : String) (name : Option String)
    (insertOk : Bool) (newId createdAt : String) (now expireMinutes : Nat)
    (secret : String) : Except HandlerError TokenResponse × List UserRow :=
  match db.filter (fun u => u.email == email) with
  | _ :: _ => (.error (.httpException 400 "Email already registered"), db)
  | [] =>
    let newUser : UserRow :=
      { id := newId, email := email, name := name,
        password_hash := get_password_hash password,
        plan_type := "free", created_at := createdAt }
    if insertOk then
      (.ok { access_token :=
               create_access_token newUser.email newUser.id now
                 (expireMinutes * 60) secret,
             token_type := "bearer", user := toUserResponse newUser },
       db ++ [newUser])
    else
      (.error (.httpException 500 "Failed to create user"), db)

/-- src/app/api/auth.py login: selects the users-table rows with the given
email; an empty result and a failed password check both raise
HTTPException 401 "Invalid email or password"; otherwise a token is issued
for the first matching row. -/
def login (db : List UserRow) (email password : String) (now expireMinutes : Nat)
    (secret : String) : Except HandlerError TokenResponse :=
  match (db.filter (fun u => u.email == email)).head? with
  | none => .error (.httpException 401 "Invalid email or password")
  | some user =>
    if ¬ verify_password password user.password_hash then
      .error (.httpException 401 "Invalid email or password")
    else
      .ok { access_token :=
              create_access_token user.email user.id now (expireMinutes * 60)
                secret,
            token_type := "bearer", user := toUserResponse user }

/-- src/app/api/auth.py get_current_user: decodes the bearer token (None on
any validation failure, mapped to 401), requires both the sub and the
user_id claims (401 "Invalid authentication credentials" when either is
missing), then re-fetches the live user row by id (401 "User not found"
when absent). -/
def get_current_user (db : List UserRow) (token : Jwt) (secret : String)
    (now : Nat) : Except HandlerError UserRow :=
  match decode_access_token token secret now with
  | none => .error (.httpException 401 "Invalid authentication credentials")
  | some payload =>
    match payload.sub, payload.user_id with
    | some _, some uid =>
      match (db.filter (fun u => u.id == uid)).head? with
      | none => .error (.httpException 401 "User not found")
      | some user => .ok user
    | some _, none => .error (.httpException 401 "Invalid authentication credentials")
    | none, _ => .error (.httpException 401 "Invalid authentication credentials")

/-- A row of the Supabase "projects" table (the fields of the
ProjectResponse model; created_at and updated_at are ISO timestamps). -/
structure ProjectRow where
  id : String
  user_id : String
  name : String
  description : Option String
  status : String
  created_at : String
  updated_at : String
deriving DecidableEq, Repr

/-- Insert a row into a list kept in descending created_at order (stable:
an incoming row goes after existing rows that are at least as recent). -/
def insertByCreatedAtDesc (p : ProjectRow) : List ProjectRow → List ProjectRow
  | [] => [p]
  | q :: qs =>
    if p.created_at ≤ q.created_at then q :: insertByCreatedAtDesc p qs
    else p :: q :: qs

/-- Model of the PostgREST order("created_at", desc=True) modifier. -/
def orderByCreatedAtDesc (rows : List ProjectRow) : List ProjectRow :=
  rows.foldr insertByCreatedAtDesc []

/-- src/app/api/projects.py get_projects: the projects-table rows whose
user_id equals the id of the authenticated user, newest first. -/
def get_projects (db : List ProjectRow) (uid : String) : List ProjectRow :=
  orderByCreatedAtDesc (db.filter (fun p => p.user_id == uid))

/-- src/app/api/projects.py get_project: selects rows matching BOTH the
requested id and the user_id of the requester; an empty result — the id does
not exist, or it exists but belongs to someone else — raises
HTTPException 404 "Project not found". -/
def get_project (db : List ProjectRow) (project_id uid : String) :
    Except HandlerError ProjectRow :=
  match (db.filter (fun p => p.id == project_id && p.user_id == uid)).head? with
  | none => .error (.httpException 404 "Project not found")
  | some p => .ok p

/-- The ProjectUpdate pydantic model after model_dump(exclude_unset=True):
a field that was not supplied in the PATCH body is `none`.  For
description, which is a nullable column, a supplied value is itself
optional.  (An explicit null for name or status would be forwarded to the
store and rejected by its non-null column constraints, an external
concern not modelled here.) -/
structure ProjectUpdate where
  name : Option String
  description : Option (Option String)
  status : Option String
deriving DecidableEq, Repr

/-- Effect on one stored row of the PostgREST update(update_data) call:
setting exactly the supplied columns. -/
def applyUpdate (u : ProjectUpdate) (p : ProjectRow) : ProjectRow :=
  { p with
    name := u.name.getD p.name,
    description := u.description.getD p.description,
    status := u.status.getD p.status }

/-- src/app/api/projects.py update_project: first selects rows matching
the id and the user_id of the requester, raising 404 "Project not found" on an
empty result; an empty update_data returns the existing first row
unchanged; otherwise the update is applied to every row matching the id
(the update call filters by id only) and the first updated row is
returned.  The projects-table state is threaded explicitly.  An empty
updated result would make updated.data[0] raise an IndexError, modelled
as an uncaught exception. -/
def update_project (db : List ProjectRow) (project_id uid : String)
    (u : ProjectUpdate) : Except HandlerError ProjectRow × List ProjectRow :=
  match (db.filter (fun p => p.id == project_id && p.user_id == uid)).head? with
  | none => (.error (.httpException 404 "Project not found"), db)
  | some existing =>
    if u.name = none ∧ u.description = none ∧ u.status = none then
      (.ok existing, db)
    else
      let newDb := db.map (fun q => if q.id == project_id then applyUpdate u q else q)
      match (newDb.filter (fun q => q.id == project_id)).head? with
      | none => (.error (.uncaught "IndexError: list index out of range"), newDb)
      | some updated => (.ok updated, newDb)

/-- Python str.strip(): drop whitespace from both ends. -/
def pyStrip (s : String) : String :=
  String.mk
    (((s.data.dropWhile Char.isWhitespace).reverse.dropWhile
        Char.isWhitespace).reverse)

/-- Python str.split(",") with the one-character separator used by the
source: split on every comma, keeping empty pieces ("" splits to [""]). -/
def pySplitComma (s : String) : List String :=
  (s.data.splitOn ',').map String.mk

/-- Python str.startswith(prefix). -/
def pyStartswith (s pre : String) : Bool :=
  pre.data.isPrefixOf s.data

/-- src/app/main.py lines 34-37: the allow-origins list handed to the CORS
middleware is the comma-split, stripped CORS_ORIGINS environment value,
with "*" appended whenever it is not already present. -/
def buildOrigins (corsOrigins : String) : List String :=
  let origins := (pySplitComma corsOrigins).map pyStrip
  if "*" ∈ origins then origins else origins ++ ["*"]

/-- Modelled from the documented semantics of the Starlette CORSMiddleware
that src/app/main.py installs (the middleware is an external library, not
repository code): when "*" is among allow_origins the middleware runs in
allow-all mode. -/
def allowAllOrigins (allowOrigins : List String) : Bool :=
  allowOrigins.contains "*"

/-- Modelled from the documented semantics of the Starlette CORSMiddleware:
a request origin is permitted when the middleware is in allow-all mode or
the origin appears verbatim in allow_origins. -/
def isAllowedOrigin (allowOrigins : List String) (origin : String) : Bool :=
  allowAllOrigins allowOrigins || allowOrigins.contains origin

/-- Modelled from the Starlette CORSMiddleware source semantics: the
Access-Control-Allow-Origin header of a preflight response.  The
middleware answers preflights with an explicit echoed origin whenever
allow_credentials is set — as src/app/main.py line 42 sets it — or
allow-all mode is off (preflight_explicit_allow_origin); only in
allow-all mode without credentials does it send the literal wildcard
header; a disallowed origin gets no such header. -/
def preflightAllowOriginHeader (allowOrigins : List String)
    (allow_credentials : Bool) (origin : String) : Option String :=
  if allowAllOrigins allowOrigins && !allow_credentials then some "*"
  else if isAllowedOrigin allowOrigins origin then some origin
  else none

/-- A row of the user_activities audit table (src/app/main.py: email may
be absent from the token payload, in which case None is inserted). -/
structure AuditRow where
  email : Option String
  action : String
  timestamp : String
deriving DecidableEq, Repr

/-- Success body of POST /transcribe. -/
structure TranscribeResponse where
  full_text : String
  srt_content : String
deriving DecidableEq, Repr

/-- Round the rational num/den (den positive) to the nearest integer,
ties to even: the rounding used both by the int-to-double true division
of CPython and by its float formatting. -/
def roundHalfEven (num den : Nat) : Nat :=
  let q := num / den
  let r := num % den
  if den < 2 * r then q + 1
  else if 2 * r < den then q
  else if q % 2 == 0 then q else q + 1

/-- Fuel-bounded power-of-two scaling of the fraction num/den into the
double significand range: doubles num (counting a) or den (counting b)
until 2^52 <= num/den < 2^53, returning (num, den, a, b). -/
def normalizeMantissa : Nat → Nat → Nat → Nat → Nat → Nat × Nat × Nat × Nat
  | 0, num, den, a, b => (num, den, a, b)
  | fuel + 1, num, den, a, b =>
    if 2 ^ 53 ≤ num / den then normalizeMantissa fuel num (den * 2) a (b + 1)
    else if num / den < 2 ^ 52 then normalizeMantissa fuel (num * 2) den (a + 1) b
    else (num, den, a, b)

/-- The rendering f-string piece of src/app/main.py line 76: Python
computes duration_ms / 1000 by true division (the IEEE-754 double
nearest to the rational, ties to even) and formats that double with
:.2f (its exact value rounded to two decimals, ties to even, zero
padded).  Both roundings are carried out exactly on the dyadic rational
sig * 2^b / 2^a, so the produced string matches CPython for every
duration. -/
def durationText (duration_ms : Nat) : String :=
  if duration_ms == 0 then "0.00"
  else
    match normalizeMantissa 4200 duration_ms 1000 0 0 with
    | (num, den, a, b) =>
      let sig := roundHalfEven num den
      let n := roundHalfEven (sig * 2 ^ b * 100) (2 ^ a)
      toString (n / 100) ++ "." ++ (if n % 100 < 10 then "0" else "")
        ++ toString (n % 100)

/-- The fixed mock subtitle block of src/app/main.py line 77. -/
def mockSrt : String :=
  "1\n00:00:00,000 --> 00:00:05,000\nMock Subtitle Line 1\n\n2\n00:00:05,000 --> 00:00:10,000\nMock Subtitle Line 2"

/-- src/app/main.py process_media_for_subtitles: pydub parsing of the
upload is the external part, passed as an oracle (`.ok ms` for a parsed
duration in milliseconds, `.error e` when parsing raised with message
e); on success it returns the mock transcript and subtitles, on failure
empty strings plus an error message. -/
def process_media_for_subtitles (parse : Except String Nat)
    (language_code : String) : String × String × Option String :=
  match parse with
  | .ok duration_ms =>
    ("This is a mock transcription of the audio file in language "
       ++ language_code ++ ". It lasted " ++ durationText duration_ms
       ++ " seconds.",
     mockSrt, none)
  | .error e => ("", "", some ("Audio processing error: " ++ e))

/-- src/app/main.py transcribe_media: rejects a missing or non-audio
content type with 400; a processing error raises 500; otherwise the
user_activities insert runs with NO try/except around it — the supabase
client raises on a failed insert (APIError in supabase-py v2, whose
dict-style auth API this source uses), so the exception propagates out of
the handler uncaught — and only then is the success payload returned.
The audit oracle carries the outcome of the external insert call; the
audit-log state is threaded explicitly. -/
def transcribe_media (contentType : Option String) (parse : Except String Nat)
    (language_code : String) (userEmail : Option String)
    (auditOutcome : Except String Unit) (log : List AuditRow) (now : String) :
    Except HandlerError TranscribeResponse × List AuditRow :=
  match contentType with
  | none => (.error (.httpException 400 "Only audio files are supported."), log)
  | some ct =>
    if ¬ pyStartswith ct "audio/" then
      (.error (.httpException 400 "Only audio files are supported."), log)
    else
      match process_media_for_subtitles parse language_code with
      | (_, _, some e) =>
        (.error (.httpException 500 ("Transcription failed: " ++ e)), log)
      | (final_text, srt_content, none) =>
        match auditOutcome with
        | .error msg => (.error (.uncaught msg), log)
        | .ok _ =>
          (.ok { full_text := final_text, srt_content := srt_content },
           log ++ [{ email := userEmail, action := "transcription", timestamp := now }])

/-- src/app/main.py make_gemini_request (mock; the 0.5s sleep models
latency only). -/
def make_gemini_request (prompt : String) (is_grounded : Bool) : String :=
  if is_grounded then
    "Translated content based on prompt: \x27" ++ prompt ++ "\x27"
  else
    "Generated text based on prompt: \x27" ++ prompt ++ "\x27"

/-- src/app/main.py translate_text: builds the prompt and calls the mock,
which cannot fail, so the error component is always None. -/
def translate_text (text target_code : String) : String × Option String :=
  (make_gemini_request
     ("Translate the following text to language \x27" ++ target_code
        ++ "\x27:\n\n" ++ text)
     false,
   none)

/-- Success body of POST /translate. -/
structure TranslateResponse where
  translated_text : String
deriving DecidableEq, Repr

/-- src/app/main.py handle_translation: translates (the mock never sets
the error), then runs the user_activities insert with no try/except — a
raising failure propagates uncaught — and then returns the payload. -/
def handle_translation (text target_code : String) (userEmail : Option String)
    (auditOutcome : Except String Unit) (log : List AuditRow) (now : String) :
    Except HandlerError TranslateResponse × List AuditRow :=
  match translate_text text target_code with
  | (_, some e) =>
    (.error (.httpException 500 ("Translation error: " ++ e)), log)
  | (translated_text, none) =>
    match auditOutcome with
    | .error msg => (.error (.uncaught msg), log)
    | .ok _ =>
      (.ok { translated_text := translated_text },
       log ++ [{ email := userEmail, action := "translation", timestamp := now }])

/-- src/app/main.py generate_tts_audio: the mock sleeps, base64 encodes
the fixed bytes b"MOCK_PCM_AUDIO_DATA_FOR_TTS" and cannot fail, so the
error component is always None. -/
def generate_tts_audio (text voice_name emotion_prompt : String) :
    String × Option String :=
  ("TU9DS19QQ01fQVVESU9fREFUQV9GT1JfVFRT", none)

/-- Success body of POST /voiceover. -/
structure TTSResponse where
  audio_base64 : String
deriving DecidableEq, Repr

/-- src/app/main.py handle_tts (lines 212-230): generates the mock
voice-over (which never sets the error), then runs the user_activities
insert with no try/except — a raising failure propagates uncaught — and
then returns the payload. -/
def handle_tts (text voice_name emotion_prompt : String)
    (userEmail : Option String) (auditOutcome : Except String Unit)
    (log : List AuditRow) (now : String) :
    Except HandlerError TTSResponse × List AuditRow :=
  match generate_tts_audio text voice_name emotion_prompt with
  | (_, some e) =>
    (.error (.httpException 500 ("Voice-over generation error: " ++ e)), log)
  | (audio_base64, none) =>
    match auditOutcome with
    | .error msg => (.error (.uncaught msg), log)
    | .ok _ =>
      (.ok { audio_base64 := audio_base64 },
       log ++ [{ email := userEmail, action := "voiceover", timestamp := now }])

/-- The composed POST /transcribe endpoint: FastAPI resolves the
Depends(verify_jwt) dependency before the handler body runs, and an
HTTPException raised there short-circuits the request; the handler
receives the decoded payload and reads user.get("email") from it. -/
def transcribe_endpoint (token : Jwt) (settings : Settings) (tokenNow : Nat)
    (contentType : Option String) (parse : Except String Nat)
    (language_code : String) (auditOutcome : Except String Unit)
    (log : List AuditRow) (now : String) :
    Except HandlerError TranscribeResponse × List AuditRow :=
  match verify_jwt token settings tokenNow with
  | .error e => (.error e, log)
  | .ok user =>
    transcribe_media contentType parse language_code user.email auditOutcome
      log now

/-- The composed POST /translate endpoint, guarded like /transcribe. -/
def translation_endpoint (token : Jwt) (settings : Settings) (tokenNow : Nat)
    (text target_code : String) (auditOutcome : Except String Unit)
    (log : List AuditRow) (now : String) :
    Except HandlerError TranslateResponse × List AuditRow :=
  match verify_jwt token settings tokenNow with
  | .error e => (.error e, log)
  | .ok user =>
    handle_translation text target_code user.email auditOutcome log now

/-- The composed POST /voiceover endpoint, guarded like /transcribe. -/
def tts_endpoint (token : Jwt) (settings : Settings) (tokenNow : Nat)
    (text voice_name emotion_prompt : String)
    (auditOutcome : Except String Unit) (log : List AuditRow) (now : String) :
    Except HandlerError TTSResponse × List AuditRow :=
  match verify_jwt token settings tokenNow with
  | .error e => (.error e, log)
  | .ok user =>
    handle_tts text voice_name emotion_prompt user.email auditOutcome log now

instance instDecEqExcept {ε α : Type} [DecidableEq ε] [DecidableEq α] :
    DecidableEq (Except ε α) := fun a b =>
  match a, b with
  | .error x, .error y =>
    if h : x = y then .isTrue (by rw [h]) else .isFalse (by simp [h])
  | .ok x, .ok y =>
    if h : x = y then .isTrue (by rw [h]) else .isFalse (by simp [h])
  | .error _, .ok _ => .isFalse (by simp)
  | .ok _, .error _ => .isFalse (by simp)

theorem get_password_hash_inj {a b : String}
    (h : get_password_hash a = get_password_hash b) : a = b := by
  have hd := congrArg String.data h
  simp only [get_password_hash, String.data_append] at hd
  exact String.ext (List.append_cancel_left hd)

theorem mem_insertByCreatedAtDesc {q p : ProjectRow} {l : List ProjectRow} :
    q ∈ insertByCreatedAtDesc p l ↔ q = p ∨ q ∈ l := by
  induction l with
  | nil => simp [insertByCreatedAtDesc]
  | cons r rs ih =>
    simp only [insertByCreatedAtDesc]
    split
    · simp only [List.mem_cons, ih]
      tauto
    · simp [List.mem_cons]

theorem mem_orderByCreatedAtDesc {q : ProjectRow} {l : List ProjectRow} :
    q ∈ orderByCreatedAtDesc l ↔ q ∈ l := by
  induction l with
  | nil => simp [orderByCreatedAtDesc]
  | cons r rs ih =>
    show q ∈ insertByCreatedAtDesc r (orderByCreatedAtDesc rs) ↔ _
    rw [mem_insertByCreatedAtDesc, ih]
    simp

/-- C1 (code bug): the claimed issue/validate round trip is unreachable
in this program — both handlers read settings.JWT_SECRET, a field the
Settings class of src/app/schemas/config.py does not declare, so
login_user turns every successful credential check into a 401 carrying
the interpolated AttributeError message and never issues a token, and
verify_jwt answers the collapsed 403 for every token at every time
without ever reaching jwt.decode. -/
theorem c1_roundtrip_unreachable (settings : Settings) (uid email : String)
    (issuedAt now : Nat) (token : Jwt) :
    Settings.getattr settings "JWT_SECRET" =
      .error "\x27Settings\x27 object has no attribute \x27JWT_SECRET\x27" ∧
    login_user (.ok (some { id := uid })) email settings issuedAt =
      .error (.httpException 401
        "Login failed: \x27Settings\x27 object has no attribute \x27JWT_SECRET\x27") ∧
    verify_jwt token settings now =
      .error (.httpException 403 "Invalid or expired token") :=
  ⟨rfl, rfl, rfl⟩

/-- C2 (code bug): a token signed with a different key is rejected and
never yields a payload, but not by signature verification — verify_jwt
raises AttributeError on settings.JWT_SECRET before jwt.decode runs, so
it answers the identical collapsed 403 for a token signed with any key,
the declared SECRET_KEY included; no invalid-signature classification
ever occurs in src/app/core/auth.py. -/
theorem c2_rejection_independent_of_key (settings : Settings)
    (payload : JwtPayload) (key otherKey : String) (now : Nat) :
    verify_jwt (jwtEncode payload key) settings now =
      .error (.httpException 403 "Invalid or expired token") ∧
    verify_jwt (jwtEncode payload key) settings now =
      verify_jwt (jwtEncode payload otherKey) settings now ∧
    verify_jwt (jwtEncode payload settings.SECRET_KEY) settings now =
      .error (.httpException 403 "Invalid or expired token") :=
  ⟨rfl, rfl, rfl⟩

/-- C3: login failure noninterference — for a registered email whose
stored hash is that of some stored password, a login with any
non-matching password produces exactly the 401 response that an
unregistered email produces, so the two failure causes are
indistinguishable to the client. -/
theorem c3_login_failure_indistinguishable (db dbMissing : List UserRow)
    (email password storedPassword : String) (u : UserRow)
    (now expireMinutes : Nat) (secret : String)
    (hu : (db.filter (fun x => x.email == email)).head? = some u)
    (hhash : u.password_hash = get_password_hash storedPassword)
    (hwrong : password ≠ storedPassword)
    (hmissing : dbMissing.filter (fun x => x.email == email) = []) :
    login db email password now expireMinutes secret =
      .error (.httpException 401 "Invalid email or password") ∧
    login dbMissing email password now expireMinutes secret =
      .error (.httpException 401 "Invalid email or password") := by
  constructor
  · have hv : verify_password password u.password_hash = false := by
      rw [hhash]
      simp only [verify_password, beq_eq_false_iff_ne, ne_eq]
      intro hcontra
      exact hwrong (get_password_hash_inj hcontra)
    simp [login, hu, hv]
  · simp [login, hmissing]

/-- Witness for C3: a store with one user, a wrong password, and an
empty store. -/
theorem c3_witness :
    login [{ id := "u1", email := "a@x.com", name := none,
             password_hash := get_password_hash "pw", plan_type := "free",
             created_at := "t0" }] "a@x.com" "wrong" 0 30 "k" =
      .error (.httpException 401 "Invalid email or password") ∧
    login [] "a@x.com" "wrong" 0 30 "k" =
      .error (.httpException 401 "Invalid email or password") :=
  c3_login_failure_indistinguishable
    [{ id := "u1", email := "a@x.com", name := none,
       password_hash := get_password_hash "pw", plan_type := "free",
       created_at := "t0" }] [] "a@x.com" "wrong" "pw"
    { id := "u1", email := "a@x.com", name := none,
      password_hash := get_password_hash "pw", plan_type := "free",
      created_at := "t0" } 0 30 "k" (by decide) rfl (by decide) rfl

/-- C4: signup with an email that already has a users-table row yields
the 400 duplicate-email conflict, for every password value, and leaves
the users table unchanged. -/
theorem c4_duplicate_email_conflict (db : List UserRow)
    (email password : String) (name : Option String) (insertOk : Bool)
    (newId createdAt : String) (now expireMinutes : Nat) (secret : String)
    (u : UserRow) (hu : u ∈ db) (he : u.email = email) :
    signup db email password name insertOk newId createdAt now expireMinutes
        secret =
      (.error (.httpException 400 "Email already registered"), db) := by
  have hne : db.filter (fun x => x.email == email) ≠ [] := by
    intro hnil
    have := List.filter_eq_nil_iff.mp hnil u hu
    simp [he] at this
  cases hf : db.filter (fun x => x.email == email) with
  | nil => exact absurd hf hne
  | cons a as => simp [signup, hf]

/-- Witness for C4: a one-user store and a signup reusing its email. -/
theorem c4_witness :
    signup [{ id := "u1", email := "a@x.com", name := none,
              password_hash := "h", plan_type := "free",
              created_at := "t0" }] "a@x.com" "newpw" none true "u2" "t1"
        0 30 "k" =
      (.error (.httpException 400 "Email already registered"),
       [{ id := "u1", email := "a@x.com", name := none,
          password_hash := "h", plan_type := "free", created_at := "t0" }]) :=
  c4_duplicate_email_conflict
    [{ id := "u1", email := "a@x.com", name := none, password_hash := "h",
       plan_type := "free", created_at := "t0" }] "a@x.com" "newpw" none
    true "u2" "t1" 0 30 "k"
    { id := "u1", email := "a@x.com", name := none, password_hash := "h",
      plan_type := "free", created_at := "t0" } (by decide) rfl

/-- C5: information hiding on project fetch — whenever no project row has
both the requested id and the requester as owner (the id is absent, or it
exists but is owned by a different user), get_project returns the one
fixed 404 Not-Found response, so the two cases are indistinguishable and
no Forbidden response exists. -/
theorem c5_not_owned_reported_as_absent (db : List ProjectRow)
    (project_id uid : String)
    (h : ∀ p ∈ db, p.id = project_id → p.user_id ≠ uid) :
    get_project db project_id uid =
      .error (.httpException 404 "Project not found") := by
  have hf : db.filter (fun p => p.id == project_id && p.user_id == uid) = [] := by
    rw [List.filter_eq_nil_iff]
    intro p hp hcontra
    simp only [Bool.and_eq_true, beq_iff_eq] at hcontra
    exact h p hp hcontra.1 hcontra.2
  simp [get_project, hf]

/-- Witness for C5: a store holding the project under another owner. -/
theorem c5_witness :
    get_project
      [{ id := "p1", user_id := "other", name := "P", description := none,
         status := "active", created_at := "t0", updated_at := "t0" }]
      "p1" "me" = .error (.httpException 404 "Project not found") :=
  c5_not_owned_reported_as_absent
    [{ id := "p1", user_id := "other", name := "P", description := none,
       status := "active", created_at := "t0", updated_at := "t0" }]
    "p1" "me" (by decide)

/-- C6: ownership isolation — for distinct users a and b, the project
list served to a contains only projects whose user_id is a, and in
particular never a project owned by b. -/
theorem c6_ownership_isolation (db : List ProjectRow) (a b : String)
    (hab : a ≠ b) :
    (∀ p ∈ get_projects db a, p.user_id = a) ∧
    (∀ p, p.user_id = b → p ∉ get_projects db a) := by
  have hmem : ∀ p ∈ get_projects db a, p.user_id = a := by
    intro p hp
    rw [get_projects, mem_orderByCreatedAtDesc] at hp
    have := (List.mem_filter.mp hp).2
    simpa using this
  refine ⟨hmem, ?_⟩
  intro p hpb hp
  exact hab ((hmem p hp).symm.trans hpb)

/-- Witness for C6: a two-user store, cross-querying the two owners. -/
theorem c6_witness :
    (∀ p ∈ get_projects
        [{ id := "p1", user_id := "ua", name := "A", description := none,
           status := "active", created_at := "t2", updated_at := "t2" },
         { id := "p2", user_id := "ub", name := "B", description := none,
           status := "active", created_at := "t1", updated_at := "t1" }] "ua",
      p.user_id = "ua") ∧
    (∀ p, p.user_id = "ub" → p ∉ get_projects
        [{ id := "p1", user_id := "ua", name := "A", description := none,
           status := "active", created_at := "t2", updated_at := "t2" },
         { id := "p2", user_id := "ub", name := "B", description := none,
           status := "active", created_at := "t1", updated_at := "t1" }] "ua") :=
  c6_ownership_isolation
    [{ id := "p1", user_id := "ua", name := "A", description := none,
       status := "active", created_at := "t2", updated_at := "t2" },
     { id := "p2", user_id := "ub", name := "B", description := none,
       status := "active", created_at := "t1", updated_at := "t1" }]
    "ua" "ub" (by decide)

/-- C10: the strict guard get_current_user rejects a token that verifies
and is unexpired but whose payload lacks the sub claim or lacks the
user_id claim: it fails with the 401 invalid-credentials response and
never returns a user row. -/
theorem c10_missing_claims_unauthorized (db : List UserRow)
    (payload : JwtPayload) (secret : String) (now : Nat)
    (hexp : ∀ e, payload.exp = some e → now < e)
    (hmissing : payload.sub = none ∨ payload.user_id = none) :
    get_current_user db (jwtEncode payload secret) secret now =
      .error (.httpException 401 "Invalid authentication credentials") := by
  have hdec : decode_access_token (jwtEncode payload secret) secret now =
      some payload := by
    cases hpe : payload.exp with
    | none => simp [decode_access_token, jwtDecode, jwtEncode, hpe]
    | some e =>
      simp [decode_access_token, jwtDecode, jwtEncode, hpe,
        Nat.not_le.mpr (hexp e hpe)]
  cases hs : payload.sub with
  | none => simp [get_current_user, hdec, hs]
  | some s =>
    cases hui : payload.user_id with
    | none => simp [get_current_user, hdec, hs, hui]
    | some i =>
      rcases hmissing with h | h
      · rw [hs] at h
        exact absurd h (by simp)
      · rw [hui] at h
        exact absurd h (by simp)

/-- Witness for C10: a verified, unexpired token whose payload has a
user_id but no sub claim. -/
theorem c10_witness :
    get_current_user []
      (jwtEncode
        { sub := none, email := some "a@x.com", user_id := some "u1",
          exp := some 100 } "k") "k" 0 =
      .error (.httpException 401 "Invalid authentication credentials") :=
  c10_missing_claims_unauthorized []
    { sub := none, email := some "a@x.com", user_id := some "u1",
      exp := some 100 } "k" 0
    (by intro e he; injection he with h; omega) (Or.inl rfl)

/-- C7: frame property of project update — for a store whose only row
with the requested id is p and p is owned by the requester, PATCH
succeeds and the returned and stored record agree with p on every field
the payload leaves unset (name, description, status when absent) and on
the untouched columns id, user_id, created_at and updated_at; rows with
other ids survive untouched. -/
theorem c7_update_frame (db : List ProjectRow) (project_id uid : String)
    (u : ProjectUpdate) (p : ProjectRow)
    (hone : db.filter (fun q => q.id == project_id) = [p])
    (hown : p.user_id = uid) :
    ∃ r newDb,
      update_project db project_id uid u = (.ok r, newDb) ∧
      newDb.filter (fun q => q.id == project_id) = [r] ∧
      (u.name = none → r.name = p.name) ∧
      (u.description = none → r.description = p.description) ∧
      (u.status = none → r.status = p.status) ∧
      r.id = p.id ∧ r.user_id = p.user_id ∧
      r.created_at = p.created_at ∧ r.updated_at = p.updated_at ∧
      (∀ q ∈ db, q.id ≠ project_id → q ∈ newDb) := by
  have hsplit : db.filter (fun q => q.id == project_id && q.user_id == uid)
      = (db.filter (fun q => q.id == project_id)).filter
          (fun q => q.user_id == uid) := by
    rw [List.filter_filter]
    apply List.filter_congr
    intro x _
    exact Bool.and_comm _ _
  have hcomb : db.filter (fun q => q.id == project_id && q.user_id == uid)
      = [p] := by
    rw [hsplit, hone]
    simp [hown]
  have hpmem : p ∈ db.filter (fun q => q.id == project_id) := by
    rw [hone]; exact List.mem_singleton.mpr rfl
  have hpid : (p.id == project_id) = true := (List.mem_filter.mp hpmem).2
  by_cases hc : u.name = none ∧ u.description = none ∧ u.status = none
  · refine ⟨p, db, ?_, hone, fun _ => rfl, fun _ => rfl, fun _ => rfl,
      rfl, rfl, rfl, rfl, fun q hq _ => hq⟩
    unfold update_project
    rw [hcomb]
    simp only [List.head?_cons]
    rw [if_pos hc]
  · have hfid : ∀ q : ProjectRow,
        ((if q.id == project_id then applyUpdate u q else q).id == project_id)
          = (q.id == project_id) := by
      intro q
      by_cases h : (q.id == project_id) = true
      · simp [h, applyUpdate]
      · simp [h]
    have hmapfil :
        (db.map (fun q => if q.id == project_id then applyUpdate u q else q)).filter
            (fun q => q.id == project_id) = [applyUpdate u p] := by
      rw [List.filter_map]
      have hpred : ((fun q : ProjectRow => q.id == project_id) ∘
          (fun q => if q.id == project_id then applyUpdate u q else q))
            = (fun q : ProjectRow => q.id == project_id) := by
        funext q; exact hfid q
      rw [hpred, hone]
      simp only [List.map_cons, List.map_nil]
      rw [if_pos hpid]
    refine ⟨applyUpdate u p,
      db.map (fun q => if q.id == project_id then applyUpdate u q else q),
      ?_, hmapfil, ?_, ?_, ?_, rfl, rfl, rfl, rfl, ?_⟩
    · unfold update_project
      rw [hcomb]
      simp only [List.head?_cons]
      rw [if_neg hc]
      simp only [hmapfil, List.head?_cons]
    · intro h; simp [applyUpdate, h]
    · intro h; simp [applyUpdate, h]
    · intro h; simp [applyUpdate, h]
    · intro q hq hne
      refine List.mem_map.mpr ⟨q, hq, ?_⟩
      have hqf : (q.id == project_id) = false := by simpa using hne
      simp [hqf]

/-- Witness for C7: a one-project store patched with only a status value;
the untouched name survives. -/
theorem c7_witness :
    update_project
      [{ id := "p1", user_id := "u1", name := "P1", description := none,
         status := "active", created_at := "t0", updated_at := "t0" }]
      "p1" "u1" { name := none, description := none, status := some "archived" } =
      (.ok (applyUpdate
              { name := none, description := none, status := some "archived" }
              { id := "p1", user_id := "u1", name := "P1", description := none,
                status := "active", created_at := "t0", updated_at := "t0" }),
       [applyUpdate
          { name := none, description := none, status := some "archived" }
          { id := "p1", user_id := "u1", name := "P1", description := none,
            status := "active", created_at := "t0", updated_at := "t0" }]) ∧
    (applyUpdate
      { name := none, description := none, status := some "archived" }
      { id := "p1", user_id := "u1", name := "P1", description := none,
        status := "active", created_at := "t0", updated_at := "t0" }).name = "P1" ∧
    (applyUpdate
      { name := none, description := none, status := some "archived" }
      { id := "p1", user_id := "u1", name := "P1", description := none,
        status := "active", created_at := "t0", updated_at := "t0" }).status = "archived" := by
  obtain ⟨r, newDb, h1, h2, hn, hd, hs, hid, huid, hca, hua, hmem⟩ :=
    c7_update_frame
      [{ id := "p1", user_id := "u1", name := "P1", description := none,
         status := "active", created_at := "t0", updated_at := "t0" }]
      "p1" "u1" { name := none, description := none, status := some "archived" }
      { id := "p1", user_id := "u1", name := "P1", description := none,
        status := "active", created_at := "t0", updated_at := "t0" }
      (by decide) rfl
  have heval : update_project
      [{ id := "p1", user_id := "u1", name := "P1", description := none,
         status := "active", created_at := "t0", updated_at := "t0" }]
      "p1" "u1" { name := none, description := none, status := some "archived" } =
      (.ok (applyUpdate
              { name := none, description := none, status := some "archived" }
              { id := "p1", user_id := "u1", name := "P1", description := none,
                status := "active", created_at := "t0", updated_at := "t0" }),
       [applyUpdate
          { name := none, description := none, status := some "archived" }
          { id := "p1", user_id := "u1", name := "P1", description := none,
            status := "active", created_at := "t0", updated_at := "t0" }]) := by
    decide
  have hr : r = applyUpdate
      { name := none, description := none, status := some "archived" }
      { id := "p1", user_id := "u1", name := "P1", description := none,
        status := "active", created_at := "t0", updated_at := "t0" } := by
    rw [heval] at h1
    exact (Except.ok.inj (congrArg Prod.fst h1)).symm
  refine ⟨heval, ?_, by decide⟩
  rw [← hr, hn rfl]

/-- C8 counterexample: with the default configured list of
src/app/schemas/config.py, the request origin http://localhost:3000 is
an explicitly configured origin, yet the middleware is in wildcard
allow-all mode all the same — the wildcard is in effect even though an
explicit configured origin matches the request — and an origin matching
no configured entry is likewise allowed and, with allow_credentials set
as in src/app/main.py, explicitly echoed back in the preflight
response. -/
theorem c8_counterexample :
    "http://localhost:3000" ∈
      buildOrigins "http://localhost:3000,http://127.0.0.1:3000" ∧
    allowAllOrigins
      (buildOrigins "http://localhost:3000,http://127.0.0.1:3000") = true ∧
    isAllowedOrigin
      (buildOrigins "http://localhost:3000,http://127.0.0.1:3000")
      "http://evil.example" = true ∧
    preflightAllowOriginHeader
      (buildOrigins "http://localhost:3000,http://127.0.0.1:3000") true
      "http://evil.example" = some "http://evil.example" := by
  decide

/-- C8 amended: the allowed-origin list is taken from the environment
(comma-split and stripped), and the wildcard is appended whenever it is
not already present, so for every configuration the middleware runs in
allow-all mode: every request origin is allowed whether or not it
matches an explicit configured entry, the allowance decision coincides
with that of the bare wildcard list (the explicit entries contribute
nothing to it), and — with allow_credentials set as in the source —
every requested origin is echoed back as explicitly allowed in
preflight responses.  The wildcard is always in effect, not a fallback
used only when no explicit origin matches. -/
theorem c8_wildcard_always_on (cfg origin : String) :
    "*" ∈ buildOrigins cfg ∧
    allowAllOrigins (buildOrigins cfg) = true ∧
    isAllowedOrigin (buildOrigins cfg) origin = true ∧
    isAllowedOrigin (buildOrigins cfg) origin = isAllowedOrigin ["*"] origin ∧
    preflightAllowOriginHeader (buildOrigins cfg) true origin = some origin := by
  have hstar : "*" ∈ buildOrigins cfg := by
    by_cases h : "*" ∈ (pySplitComma cfg).map pyStrip <;>
      simp [buildOrigins, h]
  have hall : allowAllOrigins (buildOrigins cfg) = true := by
    simpa [allowAllOrigins, List.elem_iff] using hstar
  have hwild : allowAllOrigins ["*"] = true := rfl
  refine ⟨hstar, hall, ?_, ?_, ?_⟩
  · simp [isAllowedOrigin, hall]
  · simp [isAllowedOrigin, hall, hwild]
  · simp [preflightAllowOriginHeader, isAllowedOrigin, hall]

/-- C9 counterexample: a successful transcription, translation and
voice-over whose audit insert raises — the supabase client raises on a
failed insert and nothing catches the exception — so each endpoint body
hands the caller the propagated error instead of its success payload:
the append failure IS surfaced. -/
theorem c9_counterexample :
    transcribe_media (some "audio/mpeg") (.ok 5000) "en-US" (some "a@x.com")
        (.error "APIError: insert failed") [] "2026-01-01T00:00:00" =
      (.error (.uncaught "APIError: insert failed"), []) ∧
    handle_translation "hello" "fr" (some "a@x.com")
        (.error "APIError: insert failed") [] "2026-01-01T00:00:00" =
      (.error (.uncaught "APIError: insert failed"), []) ∧
    handle_tts "hello" "Kore" "" (some "a@x.com")
        (.error "APIError: insert failed") [] "2026-01-01T00:00:00" =
      (.error (.uncaught "APIError: insert failed"), []) := by
  refine ⟨by decide, rfl, rfl⟩

/-- C9 amended: each of the three media-processing handler bodies —
transcription, translation and voice-over — appends an audit row keyed
by user email, action name and timestamp to the activity log once its
processing step succeeds, and then returns its success payload; the
append has no failure handling at all, so when the insert raises, the
error propagates to the caller uncaught (a generic 500) and the success
payload is not returned.  In the deployed composition each body
moreover sits behind Depends(verify_jwt), which — due to the missing
JWT_SECRET setting — rejects every request with the collapsed 403
before any body runs. -/
theorem c9_audit_append_unprotected (ct : String)
    (hct : pyStartswith ct "audio/" = true) (dur : Nat)
    (lang text target voice emo now : String) (userEmail : Option String)
    (log : List AuditRow) (msg : String) (token : Jwt) (settings : Settings)
    (tokenNow : Nat) :
    transcribe_media (some ct) (.ok dur) lang userEmail (.ok ()) log now =
      (.ok { full_text := "This is a mock transcription of the audio file in language "
               ++ lang ++ ". It lasted " ++ durationText dur ++ " seconds.",
             srt_content := mockSrt },
       log ++ [{ email := userEmail, action := "transcription", timestamp := now }]) ∧
    transcribe_media (some ct) (.ok dur) lang userEmail (.error msg) log now =
      (.error (.uncaught msg), log) ∧
    handle_translation text target userEmail (.ok ()) log now =
      (.ok { translated_text := (translate_text text target).1 },
       log ++ [{ email := userEmail, action := "translation", timestamp := now }]) ∧
    handle_translation text target userEmail (.error msg) log now =
      (.error (.uncaught msg), log) ∧
    handle_tts text voice emo userEmail (.ok ()) log now =
      (.ok { audio_base64 := "TU9DS19QQ01fQVVESU9fREFUQV9GT1JfVFRT" },
       log ++ [{ email := userEmail, action := "voiceover", timestamp := now }]) ∧
    handle_tts text voice emo userEmail (.error msg) log now =
      (.error (.uncaught msg), log) ∧
    transcribe_endpoint token settings tokenNow (some ct) (.ok dur) lang
        (.ok ()) log now =
      (.error (.httpException 403 "Invalid or expired token"), log) ∧
    translation_endpoint token settings tokenNow text target (.ok ()) log now =
      (.error (.httpException 403 "Invalid or expired token"), log) ∧
    tts_endpoint token settings tokenNow text voice emo (.ok ()) log now =
      (.error (.httpException 403 "Invalid or expired token"), log) := by
  refine ⟨?_, ?_, rfl, rfl, rfl, rfl, rfl, rfl, rfl⟩ <;>
    simp [transcribe_media, process_media_for_subtitles, hct]

/-- Witness for the amended C9 at concrete requests: the transcription
success append, the voice-over success append, and the guarded
voice-over endpoint rejecting the request outright. -/
theorem c9_witness :
    transcribe_media (some "audio/mpeg") (.ok 5000) "en-US" (some "a@x.com")
        (.ok ()) [] "t0" =
      (.ok { full_text := "This is a mock transcription of the audio file in language "
               ++ "en-US" ++ ". It lasted " ++ durationText 5000 ++ " seconds.",
             srt_content := mockSrt },
       [{ email := some "a@x.com", action := "transcription", timestamp := "t0" }]) ∧
    handle_tts "hello" "Kore" "" (some "a@x.com") (.ok ()) [] "t0" =
      (.ok { audio_base64 := "TU9DS19QQ01fQVVESU9fREFUQV9GT1JfVFRT" },
       [{ email := some "a@x.com", action := "voiceover", timestamp := "t0" }]) ∧
    tts_endpoint
      (jwtEncode { sub := none, email := none, user_id := none, exp := none } "k")
      { SUPABASE_URL := "u", SUPABASE_KEY := "k1", SUPABASE_SERVICE_KEY := "k2",
        SECRET_KEY := "sec", GEMINI_API_KEY := "g", JWT_ALGORITHM := "HS256",
        CORS_ORIGINS := "http://localhost:3000" } 0 "hello" "Kore" ""
      (.ok ()) [] "t0" =
      (.error (.httpException 403 "Invalid or expired token"), []) := by
  obtain ⟨h1, _, _, _, h5, _, _, _, h9⟩ :=
    c9_audit_append_unprotected "audio/mpeg" (by decide) 5000 "en-US" "hello"
      "fr" "Kore" "" "t0" (some "a@x.com") [] "boom"
      (jwtEncode { sub := none, email := none, user_id := none, exp := none } "k")
      { SUPABASE_URL := "u", SUPABASE_KEY := "k1", SUPABASE_SERVICE_KEY := "k2",
        SECRET_KEY := "sec", GEMINI_API_KEY := "g", JWT_ALGORITHM := "HS256",
        CORS_ORIGINS := "http://localhost:3000" } 0
  exact ⟨h1, h5, h9⟩

end Verbatim
